import Mathlib

/-!
Verification of the `SelectImportSourceModal` Vue component
(`src/kolibri/plugins/device/assets/src/views/ManageContentPage/SelectTransferSourceModal/SelectImportSourceModal.vue`).

The component is a small local state machine:
* `data()` initialises four fields (`source`, `initialDelay`, `formIsDisabled`,
  `kolibriStudioIsOffline`);
* `created()` schedules a 1000 ms timeout that clears `initialDelay`, and a
  remote status call whose `then`-callback possibly forces the peer source and
  unconditionally clears `formIsDisabled`;
* `handleSubmit` / `handleCancel` emit events or call Vuex collaborators.

We embed the state, the two callbacks, and the two handlers directly from the
source, and a step/trace semantics over the events the runtime can deliver
(timer firing, promise resolution, user selection, submit, cancel), in order
to state the temporal claims (one-shot transitions, permanent hang on an
unresolved status call).
-/

namespace SelectImportSourceModal

/-- The three content sources offered by the modal's radio buttons
(`ContentSources` from `../../../constants`). -/
inductive ContentSources where
  | KOLIBRI_STUDIO
  | PEER_KOLIBRI_SERVER
  | LOCAL_DRIVE
deriving DecidableEq, Repr

/-- The component's local reactive state, the four fields returned by `data()`. -/
structure ModalState where
  source : ContentSources
  initialDelay : Bool
  formIsDisabled : Bool
  kolibriStudioIsOffline : Bool
deriving DecidableEq, Repr

/-- The initial state returned by `data()` (source lines 48–56). -/
def dataInit : ModalState :=
  { source := ContentSources.KOLIBRI_STUDIO
    initialDelay := true
    formIsDisabled := true
    kolibriStudioIsOffline := false }

/-- The delay, in milliseconds, passed to `setTimeout` in `created()`. -/
def timeoutDelayMs : Nat := 1000

/-- The `setTimeout` callback from `created()`: `this.initialDelay = false;`. -/
def timeoutCallback (s : ModalState) : ModalState :=
  { s with initialDelay := false }

/-- The `then`-callback of `RemoteChannelResource.getKolibriStudioStatus()`
in `created()`: if `data.status === 'offline'` force the peer source and mark
Studio offline; in every case set `formIsDisabled` to `false`. -/
def statusCallback (status : String) (s : ModalState) : ModalState :=
  let s1 :=
    if status = "offline" then
      { s with
        source := ContentSources.PEER_KOLIBRI_SERVER
        kolibriStudioIsOffline := true }
    else s
  { s1 with formIsDisabled := false }

/-- The outward effects the component can produce: the two emitted events and
the two Vuex collaborators mapped into methods. -/
inductive Effect where
  | emitSubmit (payloadSource : ContentSources)
  | emitCancel
  | goForwardFromSelectImportSourceModal (source : ContentSources)
  | resetContentWizardState
deriving DecidableEq, Repr

/-- `handleSubmit` (source lines 74–82): guarded by `!this.formIsDisabled`;
in manage mode emit `submit` with `{ source: this.source }`, otherwise call
the wizard-advance action with `this.source`. Returns the (unchanged) state
together with the list of outward effects. -/
def handleSubmit (manageMode : Bool) (s : ModalState) : ModalState × List Effect :=
  if !s.formIsDisabled then
    if manageMode then
      (s, [Effect.emitSubmit s.source])
    else
      (s, [Effect.goForwardFromSelectImportSourceModal s.source])
  else
    (s, [])

/-- `handleCancel` (source lines 83–89): in manage mode emit `cancel` with no
payload, otherwise call the `RESET_STATE` mutation. -/
def handleCancel (manageMode : Bool) (s : ModalState) : ModalState × List Effect :=
  if manageMode then
    (s, [Effect.emitCancel])
  else
    (s, [Effect.resetContentWizardState])

/-- The `submitDisabled` prop bound on `SelectSourceModal` in the template:
`:submitDisabled="formIsDisabled"`. -/
def submitDisabled (s : ModalState) : Bool :=
  s.formIsDisabled

/-- The `showLoadingMessage` prop bound on `SelectSourceModal` in the
template: `:showLoadingMessage="formIsDisabled && !initialDelay"`. -/
def showLoadingMessage (s : ModalState) : Bool :=
  s.formIsDisabled && !s.initialDelay

/-- The events the event loop can deliver to the component after creation:
the timer firing, the status promise resolving with some status string, the
user changing the `v-model`-bound radio selection, and the two user-intent
signals forwarded by the modal shell. -/
inductive Event where
  | timerFires
  | statusResolves (status : String)
  | selectSource (choice : ContentSources)
  | submit (manageMode : Bool)
  | cancel (manageMode : Bool)
deriving DecidableEq, Repr

/-- One event-loop step: the state update and outward effects produced by
delivering a single event to the component. -/
def step (s : ModalState) : Event → ModalState × List Effect
  | Event.timerFires => (timeoutCallback s, [])
  | Event.statusResolves status => (statusCallback status s, [])
  | Event.selectSource choice => ({ s with source := choice }, [])
  | Event.submit manageMode => handleSubmit manageMode s
  | Event.cancel manageMode => handleCancel manageMode s

/-- Run a sequence of events from a state, ignoring effects. -/
def run (s : ModalState) : List Event → ModalState
  | [] => s
  | e :: es => run (step s e).1 es

/-- Whether an event is the resolution of the remote status call. -/
def isStatusEvent : Event → Bool
  | Event.statusResolves _ => true
  | _ => false

/-- Whether an event is the firing of the initial-delay timer. -/
def isTimerEvent : Event → Bool
  | Event.timerFires => true
  | _ => false

/-- Number of status-resolution events in a trace. The status promise has a
single `then`-callback, so in any real execution this is 0 or 1. -/
def countStatus : List Event → Nat
  | [] => 0
  | e :: es => (if isStatusEvent e then 1 else 0) + countStatus es

/-- Number of timer-firing events in a trace. `setTimeout` fires its callback
at most once, so in any real execution this is 0 or 1. -/
def countTimer : List Event → Nat
  | [] => 0
  | e :: es => (if isTimerEvent e then 1 else 0) + countTimer es

/-- Number of steps along a trace at which `formIsDisabled` drops from
`true` to `false`. -/
def countDisabledDrops : ModalState → List Event → Nat
  | _, [] => 0
  | s, e :: es =>
    (if s.formIsDisabled && !((step s e).1.formIsDisabled) then 1 else 0)
      + countDisabledDrops (step s e).1 es

/-- Number of steps along a trace at which `initialDelay` drops from
`true` to `false`. -/
def countDelayDrops : ModalState → List Event → Nat
  | _, [] => 0
  | s, e :: es =>
    (if s.initialDelay && !((step s e).1.initialDelay) then 1 else 0)
      + countDelayDrops (step s e).1 es

/-! ### Basic facts about the handlers and callbacks -/

theorem countDisabledDrops_cons_eq (s : ModalState) (e : Event) (es : List Event) :
    countDisabledDrops s (e :: es) =
      (if s.formIsDisabled && !((step s e).1.formIsDisabled) then 1 else 0)
        + countDisabledDrops (step s e).1 es :=
  rfl

theorem countDelayDrops_cons_eq (s : ModalState) (e : Event) (es : List Event) :
    countDelayDrops s (e :: es) =
      (if s.initialDelay && !((step s e).1.initialDelay) then 1 else 0)
        + countDelayDrops (step s e).1 es :=
  rfl

theorem handleSubmit_fst (m : Bool) (s : ModalState) : (handleSubmit m s).1 = s := by
  unfold handleSubmit
  split
  · split <;> rfl
  · rfl

theorem handleCancel_fst (m : Bool) (s : ModalState) : (handleCancel m s).1 = s := by
  unfold handleCancel
  split <;> rfl

/-- The guard `if (!this.formIsDisabled)`: a disabled form makes
`handleSubmit` a complete no-op. -/
theorem handleSubmit_disabled (m : Bool) (s : ModalState)
    (h : s.formIsDisabled = true) : handleSubmit m s = (s, []) := by
  simp [handleSubmit, h]

theorem statusCallback_formIsDisabled (status : String) (s : ModalState) :
    (statusCallback status s).formIsDisabled = false :=
  rfl

theorem statusCallback_initialDelay (status : String) (s : ModalState) :
    (statusCallback status s).initialDelay = s.initialDelay := by
  simp only [statusCallback]
  split <;> rfl

/-- Only the status-resolution callback touches `formIsDisabled`. -/
theorem step_formIsDisabled_eq (s : ModalState) (e : Event)
    (he : isStatusEvent e = false) :
    ((step s e).1).formIsDisabled = s.formIsDisabled := by
  cases e with
  | timerFires => rfl
  | statusResolves status => simp [isStatusEvent] at he
  | selectSource choice => rfl
  | submit m => simp only [step, handleSubmit_fst]
  | cancel m => simp only [step, handleCancel_fst]

/-- Once `formIsDisabled` is `false`, no event ever makes it `true` again. -/
theorem step_formIsDisabled_false (s : ModalState) (e : Event)
    (h : s.formIsDisabled = false) :
    ((step s e).1).formIsDisabled = false := by
  cases e with
  | statusResolves status => exact statusCallback_formIsDisabled status s
  | timerFires => exact h
  | selectSource choice => exact h
  | submit m => rw [step_formIsDisabled_eq s (Event.submit m) rfl]; exact h
  | cancel m => rw [step_formIsDisabled_eq s (Event.cancel m) rfl]; exact h

/-- Only the timer callback touches `initialDelay`. -/
theorem step_initialDelay_eq (s : ModalState) (e : Event)
    (he : isTimerEvent e = false) :
    ((step s e).1).initialDelay = s.initialDelay := by
  cases e with
  | timerFires => simp [isTimerEvent] at he
  | statusResolves status => exact statusCallback_initialDelay status s
  | selectSource choice => rfl
  | submit m => simp only [step, handleSubmit_fst]
  | cancel m => simp only [step, handleCancel_fst]

/-- Once `initialDelay` is `false`, no event ever makes it `true` again. -/
theorem step_initialDelay_false (s : ModalState) (e : Event)
    (h : s.initialDelay = false) :
    ((step s e).1).initialDelay = false := by
  cases e with
  | timerFires => rfl
  | statusResolves status =>
    show (statusCallback status s).initialDelay = false
    rw [statusCallback_initialDelay]; exact h
  | selectSource choice => exact h
  | submit m => rw [step_initialDelay_eq s (Event.submit m) rfl]; exact h
  | cancel m => rw [step_initialDelay_eq s (Event.cancel m) rfl]; exact h

/-- Only the status-resolution callback touches `kolibriStudioIsOffline`. -/
theorem step_offline_eq (s : ModalState) (e : Event)
    (he : isStatusEvent e = false) :
    ((step s e).1).kolibriStudioIsOffline = s.kolibriStudioIsOffline := by
  cases e with
  | timerFires => rfl
  | statusResolves status => simp [isStatusEvent] at he
  | selectSource choice => rfl
  | submit m => simp only [step, handleSubmit_fst]
  | cancel m => simp only [step, handleCancel_fst]

/-! ### Trace-level invariants -/

/-- As long as the status call has not resolved, `formIsDisabled` keeps its
value along any trace. -/
theorem run_formIsDisabled_noStatus (es : List Event) :
    ∀ s : ModalState, countStatus es = 0 →
      (run s es).formIsDisabled = s.formIsDisabled := by
  induction es with
  | nil => intro s _; rfl
  | cons e es ih =>
    intro s h
    have he : isStatusEvent e = false := by
      cases hc : isStatusEvent e
      · rfl
      · simp [countStatus, hc] at h
    have h2 : countStatus es = 0 := by
      simp [countStatus, he] at h
      exact h
    rw [run, ih _ h2, step_formIsDisabled_eq s e he]

/-- As long as the status call has not resolved, `kolibriStudioIsOffline`
keeps its value along any trace. -/
theorem run_offline_noStatus (es : List Event) :
    ∀ s : ModalState, countStatus es = 0 →
      (run s es).kolibriStudioIsOffline = s.kolibriStudioIsOffline := by
  induction es with
  | nil => intro s _; rfl
  | cons e es ih =>
    intro s h
    have he : isStatusEvent e = false := by
      cases hc : isStatusEvent e
      · rfl
      · simp [countStatus, hc] at h
    have h2 : countStatus es = 0 := by
      simp [countStatus, he] at h
      exact h
    rw [run, ih _ h2, step_offline_eq s e he]

/-- After `formIsDisabled` has gone `false`, no further true→false drop of
`formIsDisabled` is ever counted. -/
theorem countDisabledDrops_of_false (es : List Event) :
    ∀ s : ModalState, s.formIsDisabled = false → countDisabledDrops s es = 0 := by
  induction es with
  | nil => intro s _; rfl
  | cons e es ih =>
    intro s h
    rw [countDisabledDrops_cons_eq, h, ih _ (step_formIsDisabled_false s e h)]
    simp

/-- A step on a non-status event counts no `formIsDisabled` drop. -/
theorem countDisabledDrops_cons_nonstatus (s : ModalState) (e : Event)
    (es : List Event) (he : isStatusEvent e = false) :
    countDisabledDrops s (e :: es) = countDisabledDrops (step s e).1 es := by
  rw [countDisabledDrops_cons_eq, step_formIsDisabled_eq s e he]
  cases s.formIsDisabled <;> simp

/-- Core of the one-shot property: starting from a disabled form, a trace in
which the status call resolves exactly once drops `formIsDisabled` exactly
once. -/
theorem countDisabledDrops_oneStatus (es : List Event) :
    ∀ s : ModalState, s.formIsDisabled = true → countStatus es = 1 →
      countDisabledDrops s es = 1 := by
  induction es with
  | nil => intro s _ h2; simp [countStatus] at h2
  | cons e es ih =>
    intro s h1 h2
    cases hc : isStatusEvent e with
    | true =>
      cases e with
      | statusResolves status =>
        have hrest : countStatus es = 0 := by
          simp [countStatus, isStatusEvent] at h2
          exact h2
        have hstep : ((step s (Event.statusResolves status)).1).formIsDisabled = false :=
          statusCallback_formIsDisabled status s
        rw [countDisabledDrops_cons_eq, h1, hstep,
          countDisabledDrops_of_false es _ hstep]
        simp
      | timerFires => simp [isStatusEvent] at hc
      | selectSource choice => simp [isStatusEvent] at hc
      | submit m => simp [isStatusEvent] at hc
      | cancel m => simp [isStatusEvent] at hc
    | false =>
      have hrest : countStatus es = 1 := by
        simp [countStatus, hc] at h2
        exact h2
      rw [countDisabledDrops_cons_nonstatus s e es hc]
      exact ih _ (by rw [step_formIsDisabled_eq s e hc]; exact h1) hrest

/-- After `initialDelay` has gone `false`, no further true→false drop of
`initialDelay` is ever counted. -/
theorem countDelayDrops_of_false (es : List Event) :
    ∀ s : ModalState, s.initialDelay = false → countDelayDrops s es = 0 := by
  induction es with
  | nil => intro s _; rfl
  | cons e es ih =>
    intro s h
    rw [countDelayDrops_cons_eq, h, ih _ (step_initialDelay_false s e h)]
    simp

/-- A step on a non-timer event counts no `initialDelay` drop. -/
theorem countDelayDrops_cons_nontimer (s : ModalState) (e : Event)
    (es : List Event) (he : isTimerEvent e = false) :
    countDelayDrops s (e :: es) = countDelayDrops (step s e).1 es := by
  rw [countDelayDrops_cons_eq, step_initialDelay_eq s e he]
  cases s.initialDelay <;> simp

/-- Core of the delay one-shot property: starting from an active delay, a
trace in which the timer fires exactly once drops `initialDelay` exactly
once. -/
theorem countDelayDrops_oneTimer (es : List Event) :
    ∀ s : ModalState, s.initialDelay = true → countTimer es = 1 →
      countDelayDrops s es = 1 := by
  induction es with
  | nil => intro s _ h2; simp [countTimer] at h2
  | cons e es ih =>
    intro s h1 h2
    cases hc : isTimerEvent e with
    | true =>
      cases e with
      | timerFires =>
        have hrest : countTimer es = 0 := by
          simp [countTimer, isTimerEvent] at h2
          exact h2
        have hstep : ((step s Event.timerFires).1).initialDelay = false := rfl
        rw [countDelayDrops_cons_eq, h1, hstep, countDelayDrops_of_false es _ hstep]
        simp
      | statusResolves status => simp [isTimerEvent] at hc
      | selectSource choice => simp [isTimerEvent] at hc
      | submit m => simp [isTimerEvent] at hc
      | cancel m => simp [isTimerEvent] at hc
    | false =>
      have hrest : countTimer es = 1 := by
        simp [countTimer, hc] at h2
        exact h2
      rw [countDelayDrops_cons_nontimer s e es hc]
      exact ih _ (by rw [step_initialDelay_eq s e hc]; exact h1) hrest

/-! ### Claim theorems -/

/-- C1: whenever the remote status check resolves (from any state reachable
before resolution, i.e. along a trace with no prior status resolution): if
the returned status is `"offline"` then `source` is set to
`PEER_KOLIBRI_SERVER` and `kolibriStudioIsOffline` to `true`; for any other
status, `source` keeps its pre-resolution value and `kolibriStudioIsOffline`
stays `false`; in both cases `formIsDisabled` is set to `false`. -/
theorem C1_status_resolution (es : List Event) (status : String)
    (h : countStatus es = 0) :
    (status = "offline" →
      (statusCallback status (run dataInit es)).source
          = ContentSources.PEER_KOLIBRI_SERVER ∧
      (statusCallback status (run dataInit es)).kolibriStudioIsOffline = true) ∧
    (status ≠ "offline" →
      (statusCallback status (run dataInit es)).source = (run dataInit es).source ∧
      (statusCallback status (run dataInit es)).kolibriStudioIsOffline = false) ∧
    (statusCallback status (run dataInit es)).formIsDisabled = false := by
  refine ⟨?_, ?_, statusCallback_formIsDisabled status _⟩
  · intro hoff
    constructor <;> simp [statusCallback, hoff]
  · intro hoff
    have hinv : (run dataInit es).kolibriStudioIsOffline = false :=
      run_offline_noStatus es dataInit h
    constructor <;> simp [statusCallback, hoff, hinv]

/-- C1 witness: at the empty trace, resolving with `"offline"` forces the
peer source and resolving with `"online"` leaves the default source, clears
neither flag incorrectly, and enables the form. -/
theorem C1_status_resolution_witness :
    countStatus ([] : List Event) = 0 ∧
    (statusCallback "offline" (run dataInit [])).source
        = ContentSources.PEER_KOLIBRI_SERVER ∧
    (statusCallback "online" (run dataInit [])).source = (run dataInit []).source ∧
    (statusCallback "online" (run dataInit [])).formIsDisabled = false :=
  ⟨by decide,
   ((C1_status_resolution [] "offline" (by decide)).1 rfl).1,
   ((C1_status_resolution [] "online" (by decide)).2.1 (by decide)).1,
   (C1_status_resolution [] "online" (by decide)).2.2⟩

/-- C2: with the form enabled, `handleSubmit` in manage mode leaves the
state unchanged and produces exactly the one `submit` event carrying
`{ source: <current source> }`; outside manage mode it leaves the state
unchanged and produces exactly the one wizard-advance call with the current
source. -/
theorem C2_submit_enabled (s : ModalState) (h : s.formIsDisabled = false) :
    handleSubmit true s = (s, [Effect.emitSubmit s.source]) ∧
    handleSubmit false s
        = (s, [Effect.goForwardFromSelectImportSourceModal s.source]) := by
  constructor <;> simp [handleSubmit, h]

/-- C2 witness: in the state reached after the status call resolves
`"online"`, submitting in manage mode emits the one `submit` event with the
default source, and outside manage mode calls the wizard advance. -/
theorem C2_submit_enabled_witness :
    handleSubmit true (statusCallback "online" dataInit)
        = (statusCallback "online" dataInit,
           [Effect.emitSubmit (statusCallback "online" dataInit).source]) ∧
    handleSubmit false (statusCallback "online" dataInit)
        = (statusCallback "online" dataInit,
           [Effect.goForwardFromSelectImportSourceModal
             (statusCallback "online" dataInit).source]) :=
  C2_submit_enabled (statusCallback "online" dataInit) (by decide)

/-- C3: with the form disabled, `handleSubmit` is a no-op for both values of
`manageMode`: the state is unchanged and no effect at all is produced. -/
theorem C3_submit_disabled_noop (s : ModalState) (h : s.formIsDisabled = true)
    (m : Bool) : handleSubmit m s = (s, []) := by
  simp [handleSubmit, h]

/-- C3 witness: submitting in the freshly created (still disabled) state does
nothing, in manage mode. -/
theorem C3_submit_disabled_noop_witness : handleSubmit true dataInit = (dataInit, []) :=
  C3_submit_disabled_noop dataInit (by decide) true

/-- C4: `handleCancel` is unconditional: for every state (disabled or not) it
leaves the state unchanged and produces exactly one outward effect — the
`cancel` event in manage mode, the wizard `RESET_STATE` mutation
otherwise. -/
theorem C4_cancel_unconditional (s : ModalState) :
    handleCancel true s = (s, [Effect.emitCancel]) ∧
    handleCancel false s = (s, [Effect.resetContentWizardState]) ∧
    ∀ m : Bool, ((handleCancel m s).2).length = 1 := by
  refine ⟨rfl, rfl, ?_⟩
  intro m
  cases m <;> rfl

/-- C5: `formIsDisabled` is changed by no event other than the resolution of
the status check, never returns to `true` once `false`, and along any trace
from creation in which the status check resolves exactly once it drops from
`true` to `false` exactly once. -/
theorem C5_formIsDisabled_one_shot :
    (∀ (s : ModalState) (e : Event), isStatusEvent e = false →
      ((step s e).1).formIsDisabled = s.formIsDisabled) ∧
    (∀ (s : ModalState) (e : Event), s.formIsDisabled = false →
      ((step s e).1).formIsDisabled = false) ∧
    (∀ es : List Event, countStatus es = 1 → countDisabledDrops dataInit es = 1) :=
  ⟨step_formIsDisabled_eq, step_formIsDisabled_false,
   fun es h => countDisabledDrops_oneStatus es dataInit rfl h⟩

/-- C5 witness: on the concrete trace timer–resolve–select–submit, the form
is disabled by no step but the resolution and drops exactly once. -/
theorem C5_formIsDisabled_one_shot_witness :
    countStatus [Event.timerFires, Event.statusResolves "online",
        Event.selectSource ContentSources.LOCAL_DRIVE, Event.submit true] = 1 ∧
    countDisabledDrops dataInit [Event.timerFires, Event.statusResolves "online",
        Event.selectSource ContentSources.LOCAL_DRIVE, Event.submit true] = 1 :=
  ⟨by decide,
   C5_formIsDisabled_one_shot.2.2
     [Event.timerFires, Event.statusResolves "online",
      Event.selectSource ContentSources.LOCAL_DRIVE, Event.submit true]
     (by decide)⟩

/-- C6: immediately after creation, before any callback fires, the state is
`source = KOLIBRI_STUDIO` (the remote Studio library), `initialDelay = true`,
`formIsDisabled = true`, `kolibriStudioIsOffline = false`. -/
theorem C6_initial_state :
    dataInit.source = ContentSources.KOLIBRI_STUDIO ∧
    dataInit.initialDelay = true ∧
    dataInit.formIsDisabled = true ∧
    dataInit.kolibriStudioIsOffline = false :=
  ⟨rfl, rfl, rfl, rfl⟩

/-- C7: in every state, the submit control's disabled prop equals
`formIsDisabled` and the loading indicator's prop equals
`formIsDisabled && !initialDelay`; hence the loading message is suppressed
during the initial delay window, shown when the check is still pending after
the window, and hidden once the check has resolved. -/
theorem C7_presentation (s : ModalState) :
    submitDisabled s = s.formIsDisabled ∧
    showLoadingMessage s = (s.formIsDisabled && !s.initialDelay) ∧
    (s.initialDelay = true → showLoadingMessage s = false) ∧
    (s.formIsDisabled = true → s.initialDelay = false → showLoadingMessage s = true) ∧
    (s.formIsDisabled = false → showLoadingMessage s = false) := by
  refine ⟨rfl, rfl, ?_, ?_, ?_⟩ <;>
    (intros
     simp_all [showLoadingMessage])

/-- C7 witness: at creation the loading message is hidden; after the timer
fires with the check still pending, it is shown; once the check resolves, it
is hidden again. -/
theorem C7_presentation_witness :
    showLoadingMessage dataInit = false ∧
    showLoadingMessage (timeoutCallback dataInit) = true ∧
    showLoadingMessage (statusCallback "online" (timeoutCallback dataInit)) = false :=
  ⟨(C7_presentation dataInit).2.2.1 rfl,
   (C7_presentation (timeoutCallback dataInit)).2.2.2.1 rfl rfl,
   (C7_presentation (statusCallback "online" (timeoutCallback dataInit))).2.2.2.2 rfl⟩

/-- C8: the `setTimeout` delay is the constant 1000 ms; its callback sets
`initialDelay` to `false` and changes no other field; the status callback
does not change `initialDelay`; and along any trace from creation in which
the timer fires exactly once, `initialDelay` drops from `true` to `false`
exactly once, whatever the status check does. -/
theorem C8_initialDelay_one_shot :
    timeoutDelayMs = 1000 ∧
    (∀ s : ModalState,
      (timeoutCallback s).initialDelay = false ∧
      (timeoutCallback s).source = s.source ∧
      (timeoutCallback s).formIsDisabled = s.formIsDisabled ∧
      (timeoutCallback s).kolibriStudioIsOffline = s.kolibriStudioIsOffline) ∧
    (∀ (status : String) (s : ModalState),
      (statusCallback status s).initialDelay = s.initialDelay) ∧
    (∀ es : List Event, countTimer es = 1 → countDelayDrops dataInit es = 1) :=
  ⟨rfl, fun _ => ⟨rfl, rfl, rfl, rfl⟩, statusCallback_initialDelay,
   fun es h => countDelayDrops_oneTimer es dataInit rfl h⟩

/-- C8 witness: on the concrete trace resolve-then-timer, the delay flag
drops exactly once, at the timer step. -/
theorem C8_initialDelay_one_shot_witness :
    countTimer [Event.statusResolves "offline", Event.timerFires] = 1 ∧
    countDelayDrops dataInit [Event.statusResolves "offline", Event.timerFires] = 1 :=
  ⟨by decide,
   C8_initialDelay_one_shot.2.2.2
     [Event.statusResolves "offline", Event.timerFires] (by decide)⟩

/-- C9: if the status call never resolves (it rejects or hangs — the promise
has no rejection handler, so its callback never runs), then along any trace
`formIsDisabled` stays `true` and `handleSubmit` remains a no-op for both
values of `manageMode`. -/
theorem C9_unresolved_status_hangs (es : List Event) (h : countStatus es = 0) :
    (run dataInit es).formIsDisabled = true ∧
    ∀ m : Bool, handleSubmit m (run dataInit es) = (run dataInit es, []) := by
  have hd : (run dataInit es).formIsDisabled = true :=
    run_formIsDisabled_noStatus es dataInit h
  exact ⟨hd, fun m => handleSubmit_disabled m (run dataInit es) hd⟩

/-- C9 witness: after the timer fires and the user reselects and submits,
with the status call still pending, the form is still disabled and submit
still does nothing. -/
theorem C9_unresolved_status_hangs_witness :
    countStatus [Event.timerFires, Event.selectSource ContentSources.LOCAL_DRIVE,
        Event.submit false] = 0 ∧
    (run dataInit [Event.timerFires, Event.selectSource ContentSources.LOCAL_DRIVE,
        Event.submit false]).formIsDisabled = true :=
  ⟨by decide,
   (C9_unresolved_status_hangs
     [Event.timerFires, Event.selectSource ContentSources.LOCAL_DRIVE,
      Event.submit false] (by decide)).1⟩

/-- C10: neither handler mutates the local state: for every state and both
values of `manageMode`, all four fields are unchanged by `handleSubmit` and
by `handleCancel`; their only output is the effect list. -/
theorem C10_handlers_frame (s : ModalState) (m : Bool) :
    (handleSubmit m s).1.source = s.source ∧
    (handleSubmit m s).1.initialDelay = s.initialDelay ∧
    (handleSubmit m s).1.formIsDisabled = s.formIsDisabled ∧
    (handleSubmit m s).1.kolibriStudioIsOffline = s.kolibriStudioIsOffline ∧
    (handleCancel m s).1.source = s.source ∧
    (handleCancel m s).1.initialDelay = s.initialDelay ∧
    (handleCancel m s).1.formIsDisabled = s.formIsDisabled ∧
    (handleCancel m s).1.kolibriStudioIsOffline = s.kolibriStudioIsOffline := by
  rw [handleSubmit_fst, handleCancel_fst]
  exact ⟨rfl, rfl, rfl, rfl, rfl, rfl, rfl, rfl⟩

end SelectImportSourceModal
